import Mathlib

/-!
Verification of the API-gateway subsystem of constructor-demo-server.

Shallow embedding of the gateway middleware stack
(src/gateway/src/middleware/auth.ts, rateLimiter.ts, proxy.ts,
src/gateway/src/services/serviceRegistry.ts, src/gateway/src/config/services.ts,
src/gateway/src/utils/healthCheck.ts, src/gateway/src/app.ts).

JavaScript `Map` objects are embedded as association lists with
insertion-order preserving `set`; `Date.now()` timestamps are `Nat`
milliseconds; outbound HTTP effects (axios calls) are embedded as
explicit outcome functions passed in as parameters.
-/

namespace Gateway

/-! ### Kernel-reducible string primitives

`String.startsWith` and `String.drop` from core are byte-position based and
do not reduce inside the kernel, so the JS `startsWith` / prefix-removal
operations are embedded character-by-character. -/

/-- Is the first list a leading segment of the second? -/
def charsLead : List Char → List Char → Bool
  | [], _ => true
  | _ :: _, [] => false
  | c :: cs, d :: ds => c == d && charsLead cs ds

/-- JS `s.startsWith(p)`. -/
def strStartsWith (s p : String) : Bool := charsLead p.data s.data

/-- Drop the first `n` characters of `s` (JS `slice` / prefix removal). -/
def strDrop (s : String) (n : Nat) : String := ⟨s.data.drop n⟩

/-- The character length of `s` (JS `s.length`). -/
def strLen (s : String) : Nat := s.data.length

/-! ### Association-list embedding of JavaScript `Map` -/

/-- Lookup in a JS `Map` keyed by strings (`map.get(k)`). -/
def mapGet {α : Type} (s : List (String × α)) (k : String) : Option α :=
  (s.find? (fun p => decide (p.1 = k))).map (fun p => p.2)

/-- `map.set(k, v)`: replaces the value at an existing key (keeping insertion
order), otherwise appends the new binding at the end, as JS `Map.set` does. -/
def mapSet {α : Type} (s : List (String × α)) (k : String) (v : α) : List (String × α) :=
  if (s.find? (fun p => decide (p.1 = k))).isSome then
    s.map (fun p => if p.1 = k then (k, v) else p)
  else
    s ++ [(k, v)]

/-! ### Data model (src/gateway/src/types/index.ts, config/services.ts) -/

/-- `ServiceConfig` from the gateway types: one backend descriptor. -/
structure ServiceConfig where
  name : String
  url : String
  healthCheck : String
  timeout : Nat
  retries : Nat
deriving Repr, DecidableEq

/-- `RouteMapping` from the gateway types. The path-prefix field is named
`pre` here and the strip-prefix flag `strip`. -/
structure RouteMapping where
  pre : String
  serviceName : String
  strip : Bool
  authRequired : Bool
deriving Repr, DecidableEq

/-- The `SERVICES` array from config/services.ts with the environment
overrides absent (their documented defaults). -/
def SERVICES : List ServiceConfig :=
  [ { name := "auth-service", url := "http://localhost:3000",
      healthCheck := "/health", timeout := 5000, retries := 3 },
    { name := "product-service", url := "http://localhost:3000",
      healthCheck := "/health", timeout := 5000, retries := 3 },
    { name := "order-service", url := "http://localhost:3000",
      healthCheck := "/health", timeout := 5000, retries := 3 },
    { name := "recommendation-service", url := "http://localhost:3000",
      healthCheck := "/health", timeout := 10000, retries := 2 } ]

/-- The `ROUTE_MAPPINGS` array from config/services.ts. -/
def ROUTE_MAPPINGS : List RouteMapping :=
  [ { pre := "/api/auth", serviceName := "auth-service",
      strip := false, authRequired := false },
    { pre := "/api/products", serviceName := "product-service",
      strip := false, authRequired := false },
    { pre := "/api/orders", serviceName := "order-service",
      strip := false, authRequired := true },
    { pre := "/api/recommendations", serviceName := "recommendation-service",
      strip := false, authRequired := false } ]

/-- `GATEWAY_CONFIG.rateLimit` from config/services.ts:
windowMs = 15*60*1000, max = 100. -/
def rateLimitWindowMs : Nat := 15 * 60 * 1000

def rateLimitMax : Nat := 100

/-! ### Request headers

Only the header names the gateway reads or writes are modelled.  Each is
`Option String`: `none` is an absent header, matching `undefined` in JS. -/

structure Headers where
  authorization : Option String
  xUserId : Option String
  xUserEmail : Option String
  host : Option String
  xForwardedFor : Option String
  xRealIp : Option String
  xForwardedProto : Option String
deriving Repr, DecidableEq

/-- JS truthiness of a header value: `undefined` and the empty string are
falsy; any other string is truthy. -/
def truthy : Option String → Option String
  | some "" => none
  | o => o

/-! ### Auth gate (src/gateway/src/middleware/auth.ts) -/

/-- `JWTPayload` from auth.ts (the iat/exp claims are consumed inside
`jwt.verify` and are not read by the middleware itself). -/
structure JWTPayload where
  id : String
  email : String
deriving Repr, DecidableEq

/-- The error classes `jwt.verify` can throw: `TokenExpiredError` (expired),
`JsonWebTokenError` (structurally invalid / bad signature), or any other
exception. -/
inductive VerifyErr where
  | expired
  | malformed
  | otherErr (msg : String)
deriving Repr, DecidableEq

/-- The result of `jwt.verify(token, secret)`, passed in as a parameter:
either the decoded payload or a thrown error. -/
abbrev Verifier := String → Except VerifyErr JWTPayload

/-- Outcome of an auth middleware: an immediate error response
(status, body error code, body message), or `next()` with the
(possibly updated) request user and headers. -/
inductive AuthResult where
  | reject (status : Nat) (errorCode : String) (message : String)
  | proceed (user : Option JWTPayload) (headers : Headers)
deriving Repr, DecidableEq

/-- `authenticateRequest` (auth.ts lines 26-100): required-mode auth.
On success it overwrites the x-user-id / x-user-email request headers from
the decoded token; every failure answers 401/500 directly and never calls
`next()`. -/
def authenticateRequest (verify : Verifier) (h : Headers) : AuthResult :=
  match h.authorization with
  | none => .reject 401 "Unauthorized" "No authorization token provided"
  | some ah =>
    if strStartsWith ah "Bearer " then
      let token := strDrop ah 7
      if token = "" then
        .reject 401 "Unauthorized" "No token provided"
      else
        match verify token with
        | .ok d =>
          .proceed (some d) { h with xUserId := some d.id, xUserEmail := some d.email }
        | .error .expired =>
          .reject 401 "Token expired" "Your session has expired. Please login again."
        | .error .malformed =>
          .reject 401 "Invalid token" "Authentication token is invalid"
        | .error (.otherErr _) =>
          .reject 500 "Authentication error" "Could not authenticate request"
    else
      .reject 401 "Unauthorized" "Invalid authorization format. Expected: Bearer <token>"

/-- `optionalAuth` (auth.ts lines 108-140): absent or non-Bearer header, or a
failing verification, proceed unauthenticated with the request headers left
exactly as the client sent them; only a successful verification overwrites
x-user-id / x-user-email. -/
def optionalAuth (verify : Verifier) (h : Headers) : AuthResult :=
  match h.authorization with
  | none => .proceed none h
  | some ah =>
    if strStartsWith ah "Bearer " then
      match verify (strDrop ah 7) with
      | .ok d =>
        .proceed (some d) { h with xUserId := some d.id, xUserEmail := some d.email }
      | .error _ => .proceed none h
    else .proceed none h

/-- `conditionalAuth` (auth.ts lines 145-164): find the first route mapping
whose path-prefix matches; dispatch to required or optional auth on its
authRequired flag; no mapping means optional. -/
def conditionalAuth (verify : Verifier) (mappings : List RouteMapping)
    (path : String) (h : Headers) : AuthResult :=
  match mappings.find? (fun m => strStartsWith path m.pre) with
  | some m =>
    if m.authRequired then authenticateRequest verify h else optionalAuth verify h
  | none => optionalAuth verify h

/-- The header rewrite `forwardRequest` applies to the outbound axios call
(proxy.ts lines 47-54): spread all inbound headers, drop host, and set
X-Forwarded-For / X-Forwarded-Proto; x-user-id and x-user-email pass through
untouched. -/
def outboundHeaders (h : Headers) : Headers :=
  { h with
    host := none,
    xForwardedFor := (truthy h.xForwardedFor).orElse (fun _ => truthy h.xRealIp),
    xForwardedProto := some ((truthy h.xForwardedProto).getD "http") }

/-! ### Rate limiter (src/gateway/src/middleware/rateLimiter.ts) -/

/-- `RateLimitEntry` from rateLimiter.ts. -/
structure RateLimitEntry where
  count : Nat
  resetTime : Nat
deriving Repr, DecidableEq

/-- The in-memory `rateLimitStore : Map<string, RateLimitEntry>`. -/
abbrev RateStore := List (String × RateLimitEntry)

/-- Allow (call `next()`) or reject with 429 and a retryAfter hint
(in seconds). -/
inductive RateDecision where
  | allowed
  | rejected (retryAfter : Nat)
deriving Repr, DecidableEq

/-- Full observable outcome of one pass through the rate limiter: the store
afterwards, the three X-RateLimit-* response headers (set before the limit
check, hence present on both allowed and rejected responses), and the
decision. -/
structure RateLimitResult where
  store : RateStore
  limitHeader : Nat
  remainingHeader : Nat
  resetHeader : Nat
  decision : RateDecision
deriving Repr, DecidableEq

/-- One pass through the `rateLimiter` middleware body (rateLimiter.ts lines
44-87) for a given client id and current time, parameterized by the
window/max configuration (the `createRateLimiter` factory, lines 108-144,
runs the identical body over its own store and parameters).

In the source the entry fetched from the map is mutated in place
(`entry.count++`), which - because the freshly created entry was just `set`
and the pre-existing entry is aliased by the map - leaves the map holding the
incremented entry in every branch; `mapSet` with the incremented entry models
that final state.  `Math.max(0, max - count)` over non-negative JS numbers is
`Nat` truncated subtraction; `Math.ceil(d / 1000)` for the non-negative
`d = resetTime - now` is `(d + 999) / 1000`.  The three X-RateLimit-*
headers are set unconditionally before the limit check, so only the
decision (429 + return versus `next()`) depends on it. -/
def rateLimiterStep (windowMs maxReq : Nat) (s : RateStore) (clientId : String)
    (now : Nat) : RateLimitResult :=
  let entry0 : RateLimitEntry :=
    match mapGet s clientId with
    | some e =>
      if now > e.resetTime then
        { count := 0, resetTime := now + windowMs }
      else e
    | none => { count := 0, resetTime := now + windowMs }
  let entry : RateLimitEntry := { entry0 with count := entry0.count + 1 }
  let s' := mapSet s clientId entry
  let remaining := maxReq - entry.count
  { store := s', limitHeader := maxReq, remainingHeader := remaining,
    resetHeader := entry.resetTime,
    decision :=
      if entry.count > maxReq then
        .rejected ((entry.resetTime - now + 999) / 1000)
      else .allowed }

/-- Modelled from the spec: the fixed-window algorithm in the spec's own
words - look up entry by key; if absent or now > entry.resetAt, create a
fresh entry with count=0 and resetAt = now + windowMs; increment count;
remaining = max(0, maxRequests - count); reject exactly when
count > maxRequests with retryAfterSeconds = ceil((entry.resetAt - now)/1000);
headers reporting limit/remaining/reset set on both outcomes. -/
def fixedWindowSpecStep (windowMs maxReq : Nat) (s : RateStore) (clientId : String)
    (now : Nat) : RateLimitResult :=
  let looked := mapGet s clientId
  let fresh : RateLimitEntry := { count := 0, resetTime := now + windowMs }
  let entry0 :=
    match looked with
    | none => fresh
    | some e => if now > e.resetTime then fresh else e
  let entry : RateLimitEntry := { entry0 with count := entry0.count + 1 }
  let remaining := if entry.count ≤ maxReq then maxReq - entry.count else 0
  { store := mapSet s clientId entry,
    limitHeader := maxReq,
    remainingHeader := remaining,
    resetHeader := entry.resetTime,
    decision :=
      if entry.count > maxReq then
        .rejected ((entry.resetTime - now + 999) / 1000)
      else .allowed }

/-- Iterate `n` requests from the same client at the same timestamp,
returning the store that results. -/
def rateLimiterRun (windowMs maxReq : Nat) (clientId : String) (now : Nat) :
    Nat → RateStore → RateStore
  | 0, s => s
  | n + 1, s =>
    rateLimiterRun windowMs maxReq clientId now n
      (rateLimiterStep windowMs maxReq s clientId now).store

/-- `getClientIdentifier` (rateLimiter.ts lines 93-103): the x-user-id
request header if truthy, else the first truthy of x-forwarded-for, the
socket's remote address, and the literal "unknown". -/
def getClientIdentifier (h : Headers) (remoteAddress : Option String) : String :=
  match truthy h.xUserId with
  | some uid => "user:" ++ uid
  | none =>
    "ip:" ++ ((truthy h.xForwardedFor).getD ((truthy remoteAddress).getD "unknown"))

/-- In app.ts the global `rateLimiter` is installed (section 4, line 63)
before `conditionalAuth` (section 6, line 95), so the limiter key is computed
from the inbound headers exactly as the client sent them - no verification
has run yet when the key is derived. -/
def appRateLimitKey (inbound : Headers) (remoteAddress : Option String) : String :=
  getClientIdentifier inbound remoteAddress

/-! ### Proxy forwarder (src/gateway/src/middleware/proxy.ts) -/

/-- The ways a single axios attempt inside `forwardRequest` can reject:
connection refused (ECONNREFUSED), timed out (ETIMEDOUT), aborted
(ECONNABORTED), an error carrying an HTTP response, or anything else. -/
inductive AxiosErr where
  | connRefused
  | timedOut
  | aborted
  | withResponse (status : Nat) (body : String)
  | otherFailure (msg : String)
deriving Repr, DecidableEq

/-- Outcome of one axios attempt.  Because `forwardRequest` passes
`validateStatus: () => true`, every HTTP response - whatever its status code,
4xx and 5xx included - resolves the promise and lands in the `response`
constructor; only connection-level failures reject and land in `failure`. -/
inductive AttemptOutcome where
  | response (status : Nat) (body : String)
  | failure (e : AxiosErr)
deriving Repr, DecidableEq

/-- Result of `forwardRequest`: the response returned (recording on which
attempt), or the error thrown, with the number of attempts actually made. -/
inductive ForwardResult where
  | ok (attempts : Nat) (status : Nat) (body : String)
  | thrown (attempts : Nat) (lastError : Option AxiosErr)
deriving Repr, DecidableEq

/-- The exponential backoff delay computed before a retry:
`Math.pow(2, attempt) * 100` (proxy.ts line 81). -/
def backoffDelay (attempt : Nat) : Nat := 2 ^ attempt * 100

/-- The catch-block guard (proxy.ts line 75): the thrown error carries a
response with a 4xx status. -/
def isClientErr : AxiosErr → Bool
  | .withResponse st _ => 400 ≤ st && st < 500
  | _ => false

/-- The `for (attempt = 1; attempt <= retries; attempt++)` loop of
`forwardRequest` (proxy.ts lines 41-88).  `left` is the number of loop
iterations still permitted (`retries - attempt + 1`); when it reaches 0 the
loop has exited and `throw lastError` fires.  A resolved attempt returns its
response at once; a rejected attempt records the error, throws immediately
if the error carries a 4xx response, and otherwise sleeps
`backoffDelay attempt` (only when `attempt < retries`) before the next
iteration; the delays slept are accumulated. -/
def forwardAux (outcome : Nat → AttemptOutcome) (retries : Nat) :
    Nat → Nat → Option AxiosErr → List Nat → ForwardResult × List Nat
  | 0, attempt, lastErr, delays => (.thrown (attempt - 1) lastErr, delays)
  | left + 1, attempt, _lastErr, delays =>
    match outcome attempt with
    | .response st body => (.ok attempt st body, delays)
    | .failure e =>
      if isClientErr e then (.thrown attempt (some e), delays)
      else
        let delays' := if attempt < retries then delays ++ [backoffDelay attempt] else delays
        forwardAux outcome retries left (attempt + 1) (some e) delays'

/-- `forwardRequest` with its retry budget, as a function of the outcome of
each attempt. -/
def forwardRequest (outcome : Nat → AttemptOutcome) (retries : Nat) :
    ForwardResult × List Nat :=
  forwardAux outcome retries retries 1 none []

/-- What `proxyRequest` sends back to the client: a relayed upstream
response, or a gateway-generated JSON error body (status, error code,
message).  `unhandled` marks the impossible `throw null` path (retries = 0),
where the catch block itself faults on `error.message`. -/
inductive GatewayReply where
  | relayed (status : Nat) (body : String)
  | errorJson (status : Nat) (errorCode : String) (message : String)
  | unhandled
deriving Repr, DecidableEq

/-- The response `proxyRequest` produces from the outcome of
`forwardRequest` (proxy.ts lines 173 and 180-204): a returned response is
relayed with its status and body; a thrown ECONNREFUSED becomes 503, a
thrown ETIMEDOUT or ECONNABORTED becomes 504, a thrown error carrying a
response is relayed, and anything else becomes 500. -/
def proxyRespond : ForwardResult → GatewayReply
  | .ok _ st body => .relayed st body
  | .thrown _ (some .connRefused) =>
    .errorJson 503 "Service unavailable" "Could not connect to service"
  | .thrown _ (some .timedOut) =>
    .errorJson 504 "Gateway timeout" "Service took too long to respond"
  | .thrown _ (some .aborted) =>
    .errorJson 504 "Gateway timeout" "Service took too long to respond"
  | .thrown _ (some (.withResponse st body)) => .relayed st body
  | .thrown _ (some (.otherFailure msg)) =>
    .errorJson 500 "Internal gateway error" msg
  | .thrown _ none => .unhandled

/-! ### Route resolution (proxy.ts lines 100-137) -/

/-- Result of resolving an inbound path against the route table and the
registry: RouteNotFound (404 "Route not found"), ServiceNotRegistered
(503 "Service unavailable ... not found in registry"), or a target service
with the path to forward. -/
inductive RouteResult where
  | routeNotFound
  | serviceNotRegistered (serviceName : String)
  | resolved (service : ServiceConfig) (targetPath : String)
deriving Repr, DecidableEq

/-- `ROUTE_MAPPINGS.find(m => path.startsWith(m.prefix))`. -/
def findMapping (mappings : List RouteMapping) (path : String) : Option RouteMapping :=
  mappings.find? (fun m => strStartsWith path m.pre)

/-- The target-path computation (proxy.ts lines 131-137).  For a matched
mapping the JS `path.replace(prefix, '')` removes the first occurrence of the
prefix, which sits at position 0 because the mapping matched via
`startsWith`, so it drops exactly `pre.length` characters; then `/` is
re-prepended when missing. -/
def targetPathFor (m : RouteMapping) (path : String) : String :=
  if m.strip then
    let stripped := strDrop path (strLen m.pre)
    if strStartsWith stripped "/" then stripped else "/" ++ stripped
  else path

/-- `serviceRegistry.getService(name)`: the registry's service map is built
from the configured list keyed by name, so lookup finds the first config
with that name. -/
def getServiceCfg (services : List ServiceConfig) (name : String) : Option ServiceConfig :=
  services.find? (fun s => decide (s.name = name))

/-- The routing portion of `proxyRequest` (proxy.ts lines 104-137): first
matching mapping, 404 when none, 503 when the mapped service is missing from
the registry, otherwise the service and the computed target path. -/
def resolveRoute (mappings : List RouteMapping) (services : List ServiceConfig)
    (path : String) : RouteResult :=
  match findMapping mappings path with
  | none => .routeNotFound
  | some m =>
    match getServiceCfg services m.serviceName with
    | none => .serviceNotRegistered m.serviceName
    | some svc => .resolved svc (targetPathFor m path)

/-! ### Service registry (src/gateway/src/services/serviceRegistry.ts) -/

inductive HealthState where
  | healthy
  | unhealthy
  | unknown
deriving Repr, DecidableEq, BEq

/-- `HealthStatus` from the gateway types: one record per service.
`lastCheck` is the `new Date()` timestamp in ms. -/
structure HealthStatus where
  service : String
  status : HealthState
  responseTime : Option Nat
  lastCheck : Nat
  error : Option String
deriving Repr, DecidableEq

/-- The mutable state of the `ServiceRegistry` singleton.  The two JS `Map`s
are association lists; the interval timer machinery is made explicit:
`liveTimers` are the ids of `setInterval` timers currently scheduled,
`timerHandle` is the `healthCheckInterval` field (holding the id of the most
recently created timer), and `nextTimerId` numbers fresh timers. -/
structure RegistryState where
  services : List (String × ServiceConfig)
  healthStatuses : List (String × HealthStatus)
  liveTimers : List Nat
  timerHandle : Option Nat
  nextTimerId : Nat
deriving Repr, DecidableEq

/-- Outcome of the axios health probe
(`GET service.url + service.healthCheck` with `validateStatus: status === 200`):
resolves only on HTTP 200 within the timeout (carrying the elapsed time);
any non-200 status, refusal or timeout rejects with an error message. -/
inductive ProbeResult where
  | ok (responseTime : Nat)
  | probeFail (msg : String)
deriving Repr, DecidableEq

def ProbeResult.isFail : ProbeResult → Bool
  | .ok _ => false
  | .probeFail _ => true

/-- One iteration of the `SERVICES.forEach` body inside `initializeServices`
(serviceRegistry.ts lines 126-133): `set` the service in the services map and
`set` a status=unknown record in the health map. -/
def registerService (now : Nat) (st : RegistryState) (svc : ServiceConfig) : RegistryState :=
  { st with
    services := mapSet st.services svc.name svc,
    healthStatuses := mapSet st.healthStatuses svc.name
      { service := svc.name, status := .unknown, responseTime := none,
        lastCheck := now, error := none } }

/-- `initializeServices` (serviceRegistry.ts lines 125-137), run by the
constructor over the configured services, starting from the empty maps. -/
def initServices (cfgs : List ServiceConfig) (now : Nat) : RegistryState :=
  cfgs.foldl (registerService now)
    { services := [], healthStatuses := [], liveTimers := [],
      timerHandle := none, nextTimerId := 0 }

/-- `checkServiceHealth` (serviceRegistry.ts lines 171-218), with the probe
outcome per service name passed in.  An unregistered name returns a
status=unknown record with an error message and writes nothing; a registered
name probes, writes the resulting record under that name, and returns it. -/
def checkServiceHealth (probe : String → ProbeResult) (now : Nat)
    (st : RegistryState) (serviceName : String) : HealthStatus × RegistryState :=
  match mapGet st.services serviceName with
  | none =>
    ({ service := serviceName, status := .unknown, responseTime := none,
       lastCheck := now, error := some "Service not found in registry" }, st)
  | some _ =>
    match probe serviceName with
    | .ok rt =>
      let hs : HealthStatus :=
        { service := serviceName, status := .healthy, responseTime := some rt,
          lastCheck := now, error := none }
      (hs, { st with healthStatuses := mapSet st.healthStatuses serviceName hs })
    | .probeFail msg =>
      let hs : HealthStatus :=
        { service := serviceName, status := .unhealthy, responseTime := none,
          lastCheck := now, error := some msg }
      (hs, { st with healthStatuses := mapSet st.healthStatuses serviceName hs })

/-- The `Promise.all` fan-out over a list of service names.  The resolved
array is in input order regardless of completion order, and each probe only
writes its own key, so threading the state left-to-right yields the same
final registry state as the concurrent execution. -/
def checkHealthList (probe : String → ProbeResult) (now : Nat) :
    List String → RegistryState → List HealthStatus × RegistryState
  | [], st => ([], st)
  | n :: ns, st =>
    let first := checkServiceHealth probe now st n
    let rest := checkHealthList probe now ns first.2
    (first.1 :: rest.1, rest.2)

/-- `checkAllServicesHealth` (serviceRegistry.ts lines 223-229):
`Array.from(this.services.keys()).map(checkServiceHealth)` joined with
`Promise.all`. -/
def checkAllServicesHealth (probe : String → ProbeResult) (now : Nat)
    (st : RegistryState) : List HealthStatus × RegistryState :=
  checkHealthList probe now (st.services.map Prod.fst) st

/-- `startHealthChecks` (serviceRegistry.ts lines 251-261): run an immediate
`checkAllServicesHealth`, then unconditionally create a new interval timer
and store its handle in `healthCheckInterval` - any previously stored handle
is overwritten while its timer keeps running. -/
def startHealthChecks (probe : String → ProbeResult) (now : Nat)
    (st : RegistryState) : RegistryState :=
  let st1 := (checkAllServicesHealth probe now st).2
  { st1 with
    liveTimers := st1.liveTimers ++ [st1.nextTimerId],
    timerHandle := some st1.nextTimerId,
    nextTimerId := st1.nextTimerId + 1 }

/-- `stopHealthChecks` (serviceRegistry.ts lines 266-271): if a handle is
stored, `clearInterval` it (cancelling that timer if it is still live); the
handle field itself is not cleared. -/
def stopHealthChecks (st : RegistryState) : RegistryState :=
  match st.timerHandle with
  | none => st
  | some id => { st with liveTimers := st.liveTimers.erase id }

/-- `isServiceHealthy` (serviceRegistry.ts lines 276-279). -/
def isServiceHealthy (st : RegistryState) (serviceName : String) : Bool :=
  match mapGet st.healthStatuses serviceName with
  | some hs => hs.status == .healthy
  | none => false

/-- `getAllHealthStatuses` (serviceRegistry.ts lines 241-243). -/
def getAllHealthStatuses (st : RegistryState) : List HealthStatus :=
  st.healthStatuses.map Prod.snd

/-- The test `s.status === 'healthy'` used by the /ready and /status
handlers. -/
def isHealthyRec (r : HealthStatus) : Bool :=
  match r.status with
  | .healthy => true
  | _ => false

/-- The test `s.status === 'unhealthy'` used by the /ready and /status
handlers. -/
def isUnhealthyRec (r : HealthStatus) : Bool :=
  match r.status with
  | .unhealthy => true
  | _ => false

/-- The status code of `GET /ready` (healthCheck.ts lines 46-77): 200 when
the number of healthy records among `checkAllServicesHealth`'s results is
positive, else 503; the body carries the total/healthy/unhealthy counts and
the per-service records. -/
def readyStatusCode (results : List HealthStatus) : Nat :=
  if 0 < (results.filter isHealthyRec).length then 200 else 503

/-! ## Theorems -/

/-- Claim C1: the spec's trust-boundary invariant says X-User-Id / X-User-Email
reach the backend only when just set by a successful verification.  The code
violates it: on a route with authRequired = false, a request carrying no
Authorization header but client-supplied x-user-id / x-user-email headers
passes through `optionalAuth` with those headers untouched, and the proxy's
outbound header rewrite forwards them verbatim to the backend. -/
theorem clientIdentityHeadersForwardedWithoutVerification :
    (conditionalAuth (fun _ => .error .malformed) ROUTE_MAPPINGS "/api/products/1"
        { authorization := none, xUserId := some "attacker-id",
          xUserEmail := some "attacker@example.com", host := some "gw.example",
          xForwardedFor := none, xRealIp := none, xForwardedProto := none }
      = .proceed none
        { authorization := none, xUserId := some "attacker-id",
          xUserEmail := some "attacker@example.com", host := some "gw.example",
          xForwardedFor := none, xRealIp := none, xForwardedProto := none })
    ∧ (outboundHeaders
        { authorization := none, xUserId := some "attacker-id",
          xUserEmail := some "attacker@example.com", host := some "gw.example",
          xForwardedFor := none, xRealIp := none, xForwardedProto := none }).xUserId
      = some "attacker-id"
    ∧ (outboundHeaders
        { authorization := none, xUserId := some "attacker-id",
          xUserEmail := some "attacker@example.com", host := some "gw.example",
          xForwardedFor := none, xRealIp := none, xForwardedProto := none }).xUserEmail
      = some "attacker@example.com" := by
  decide

/-- Claim C2: the spec says an attempt that returns a 5xx response is retried
with exponential backoff.  Because `forwardRequest` passes
`validateStatus: () => true` to axios, every HTTP response resolves, so a
backend answering HTTP 500 to every attempt yields exactly one attempt and
the 500 is relayed; only connection-level failures are retried (a backend
that refuses twice then succeeds takes exactly 3 of the 3 budgeted attempts
with 200 ms and 400 ms backoff, a 404 is terminal after 1 attempt, and an
exhausted budget surfaces the last error). -/
theorem fiveHundredResponsesAreNotRetried :
    forwardRequest (fun _ => .response 500 "upstream error") 3
      = (.ok 1 500 "upstream error", [])
    ∧ proxyRespond (forwardRequest (fun _ => .response 500 "upstream error") 3).1
      = .relayed 500 "upstream error"
    ∧ forwardRequest (fun a => if a ≤ 2 then .failure .connRefused else .response 200 "ok") 3
      = (.ok 3 200 "ok", [200, 400])
    ∧ forwardRequest (fun _ => .response 404 "not found") 3
      = (.ok 1 404 "not found", [])
    ∧ forwardRequest (fun _ => .failure .connRefused) 3
      = (.thrown 3 (some .connRefused), [200, 400]) := by
  decide

/-- Claim C4: the spec says the key is user:<id> exactly for a verified user
id.  The limiter runs before the auth middleware in app.ts and
`getClientIdentifier` keys on the raw x-user-id request header, so an
unauthenticated request carrying a client-supplied x-user-id gets a user:
key with no verification; the ip fallback (forwarded-for header, then socket
address, then "unknown") behaves as claimed. -/
theorem rateLimitKeyTrustsClientHeader :
    appRateLimitKey
        { authorization := none, xUserId := some "spoofed-id", xUserEmail := none,
          host := none, xForwardedFor := none, xRealIp := none, xForwardedProto := none }
        (some "10.0.0.1")
      = "user:spoofed-id"
    ∧ getClientIdentifier
        { authorization := none, xUserId := none, xUserEmail := none,
          host := none, xForwardedFor := some "1.2.3.4", xRealIp := none,
          xForwardedProto := none }
        (some "10.0.0.1")
      = "ip:1.2.3.4"
    ∧ getClientIdentifier
        { authorization := none, xUserId := none, xUserEmail := none,
          host := none, xForwardedFor := none, xRealIp := none, xForwardedProto := none }
        (some "10.0.0.1")
      = "ip:10.0.0.1"
    ∧ getClientIdentifier
        { authorization := none, xUserId := none, xUserEmail := none,
          host := none, xForwardedFor := none, xRealIp := none, xForwardedProto := none }
        none
      = "ip:unknown" := by
  decide

/-- Claim C9: the spec requires start/stop of the periodic health checks to
be idempotent.  Stopping a never-started registry is indeed a no-op, but
`startHealthChecks` creates a new interval unconditionally: after two calls
two timers are live, and since the first handle was overwritten,
`stopHealthChecks` cancels only the second timer. -/
theorem startHealthChecksNotIdempotent :
    stopHealthChecks (initServices SERVICES 0) = initServices SERVICES 0
    ∧ (startHealthChecks (fun _ => .probeFail "connect ECONNREFUSED") 0
        (startHealthChecks (fun _ => .probeFail "connect ECONNREFUSED") 0
          (initServices SERVICES 0))).liveTimers.length = 2
    ∧ (stopHealthChecks
        (startHealthChecks (fun _ => .probeFail "connect ECONNREFUSED") 0
          (startHealthChecks (fun _ => .probeFail "connect ECONNREFUSED") 0
            (initServices SERVICES 0)))).liveTimers = [0] := by
  decide

set_option maxRecDepth 40000 in
/-- Claim C3: the rate limiter follows the fixed-window algorithm exactly as
the spec states it (proved as an equality with a step function written from
the spec's words), and consequently - with windowMs 60000 and max 100 for
one client key - the 101st request in the window is rejected with
retryAfterSeconds 60, while the first request after the window elapses is
allowed with a fresh count of 1 and 99 remaining. -/
theorem rateLimiterImplementsFixedWindow :
    (∀ windowMs maxReq s clientId now,
       rateLimiterStep windowMs maxReq s clientId now
         = fixedWindowSpecStep windowMs maxReq s clientId now)
    ∧ (rateLimiterStep 60000 100 (rateLimiterRun 60000 100 "k" 0 100 []) "k" 0).decision
      = .rejected 60
    ∧ (rateLimiterStep 60000 100 (rateLimiterRun 60000 100 "k" 0 101 []) "k" 60001).decision
      = .allowed
    ∧ mapGet (rateLimiterStep 60000 100 (rateLimiterRun 60000 100 "k" 0 101 []) "k" 60001).store "k"
      = some { count := 1, resetTime := 120001 }
    ∧ (rateLimiterStep 60000 100 (rateLimiterRun 60000 100 "k" 0 101 []) "k" 60001).remainingHeader
      = 99 := by
  refine ⟨?_, by decide, by decide, by decide, by decide⟩
  intro w m s k now
  cases hget : mapGet s k with
  | none =>
    simp only [rateLimiterStep, fixedWindowSpecStep, hget, RateLimitResult.mk.injEq,
      eq_self_iff_true, true_and, and_true]
    split <;> omega
  | some e =>
    by_cases hexp : now > e.resetTime <;>
      simp only [rateLimiterStep, fixedWindowSpecStep, hget, hexp, if_true, if_false,
        eq_self_iff_true, true_and, and_true, RateLimitResult.mk.injEq] <;>
      split <;> omega

/-- Helper: if every attempt rejects with the same error not carrying a 4xx
response, the retry loop consumes its whole remaining budget and throws that
error. -/
theorem forwardAux_const_failure (outcome : Nat → AttemptOutcome) (retries : Nat)
    (e : AxiosErr) (he : isClientErr e = false) (hout : ∀ a, outcome a = .failure e) :
    ∀ (left attempt : Nat) (lastErr : Option AxiosErr) (delays : List Nat),
      (forwardAux outcome retries (left + 1) attempt lastErr delays).1
        = .thrown (attempt + left) (some e) := by
  intro left
  induction left with
  | zero =>
    intro attempt lastErr delays
    simp [forwardAux, hout attempt, he]
  | succ l ih =>
    intro attempt lastErr delays
    rw [show attempt + (l + 1) = (attempt + 1) + l by omega]
    rw [forwardAux, hout attempt]
    simp only [he, Bool.false_eq_true, if_false]
    exact ih (attempt + 1) (some e) _

/-- Claim C5: failure classification at the caller boundary.  For any retry
budget of at least one attempt: forwarding that always fails with connection
refused answers 503 with the service-unavailability body; always timing out
or aborting answers 504; an upstream HTTP response of any status on the
first attempt is relayed with its status and body; and an unclassified error
answers 500. -/
theorem proxyFailureClassification (outcome : Nat → AttemptOutcome) (retries : Nat)
    (hr : 1 ≤ retries) :
    ((∀ a, outcome a = .failure .connRefused) →
       proxyRespond (forwardRequest outcome retries).1
         = .errorJson 503 "Service unavailable" "Could not connect to service")
    ∧ ((∀ a, outcome a = .failure .timedOut) →
       proxyRespond (forwardRequest outcome retries).1
         = .errorJson 504 "Gateway timeout" "Service took too long to respond")
    ∧ ((∀ a, outcome a = .failure .aborted) →
       proxyRespond (forwardRequest outcome retries).1
         = .errorJson 504 "Gateway timeout" "Service took too long to respond")
    ∧ (∀ st body, outcome 1 = .response st body →
       proxyRespond (forwardRequest outcome retries).1 = .relayed st body)
    ∧ (∀ msg, (∀ a, outcome a = .failure (.otherFailure msg)) →
       proxyRespond (forwardRequest outcome retries).1
         = .errorJson 500 "Internal gateway error" msg) := by
  obtain ⟨r, rfl⟩ : ∃ r, retries = r + 1 := ⟨retries - 1, by omega⟩
  refine ⟨?_, ?_, ?_, ?_, ?_⟩
  · intro hall
    unfold forwardRequest
    rw [forwardAux_const_failure outcome (r + 1) .connRefused rfl hall r 1 none []]
    rfl
  · intro hall
    unfold forwardRequest
    rw [forwardAux_const_failure outcome (r + 1) .timedOut rfl hall r 1 none []]
    rfl
  · intro hall
    unfold forwardRequest
    rw [forwardAux_const_failure outcome (r + 1) .aborted rfl hall r 1 none []]
    rfl
  · intro st body h1
    unfold forwardRequest
    simp [forwardAux, h1, proxyRespond]
  · intro msg hall
    unfold forwardRequest
    rw [forwardAux_const_failure outcome (r + 1) (.otherFailure msg) rfl hall r 1 none []]
    rfl

/-- Witness for claim C5 at a concrete input: retries = 3 and a backend that
always refuses connections produce the 503 service-unavailability reply. -/
theorem proxyFailureClassificationWitness :
    proxyRespond (forwardRequest (fun _ => .failure .connRefused) 3).1
      = .errorJson 503 "Service unavailable" "Could not connect to service" :=
  (proxyFailureClassification (fun _ => .failure .connRefused) 3 (by omega)).1
    (fun _ => rfl)

/-- Helper: `find?` over an appended list whose first segment contains no
match returns the first match of the remainder. -/
theorem find?_append_first {α : Type} {p : α → Bool} :
    ∀ (l₁ : List α) (m : α) (l₂ : List α),
      (∀ m' ∈ l₁, p m' = false) → p m = true →
      (l₁ ++ m :: l₂).find? p = some m := by
  intro l₁
  induction l₁ with
  | nil =>
    intro m l₂ _ hm
    simp [List.find?, hm]
  | cons a t ih =>
    intro m l₂ hnone hm
    have ha := hnone a (by simp)
    simp only [List.cons_append, List.find?, ha]
    exact ih m l₂ (fun m' hm' => hnone m' (by simp [hm'])) hm

/-- Helper: resolution yields RouteNotFound exactly when no mapping's
path-prefix matches (the registry lookup can only produce the other two
results). -/
theorem resolveRoute_notFound_iff (mappings : List RouteMapping)
    (services : List ServiceConfig) (path : String) :
    resolveRoute mappings services path = .routeNotFound
      ↔ findMapping mappings path = none := by
  unfold resolveRoute
  cases hf : findMapping mappings path with
  | none => simp
  | some m =>
    cases hg : getServiceCfg services m.serviceName <;> simp [hg]

/-- Claim C6: route resolution scans the mappings in declared order and takes
the first whose path-prefix matches via startsWith; no match is
RouteNotFound; a matched rule whose service name is absent from the registry
is ServiceNotRegistered, a distinct result from RouteNotFound; stripPrefix
removes the prefix and re-prepends a slash when needed, and without
stripPrefix the path is forwarded unchanged. -/
theorem routeResolutionFirstMatch :
    (∀ (mappings : List RouteMapping) (services : List ServiceConfig) (path : String),
       resolveRoute mappings services path = .routeNotFound
         ↔ ∀ m ∈ mappings, strStartsWith path m.pre = false)
    ∧ (∀ (l₁ l₂ : List RouteMapping) (m : RouteMapping)
         (services : List ServiceConfig) (path : String),
       (∀ m' ∈ l₁, strStartsWith path m'.pre = false) →
       strStartsWith path m.pre = true →
       resolveRoute (l₁ ++ m :: l₂) services path
         = match getServiceCfg services m.serviceName with
           | none => .serviceNotRegistered m.serviceName
           | some svc => .resolved svc (targetPathFor m path))
    ∧ (∀ (m : RouteMapping) (path : String), m.strip = true →
       targetPathFor m path
         = (if strStartsWith (strDrop path (strLen m.pre)) "/" then
              strDrop path (strLen m.pre)
            else "/" ++ strDrop path (strLen m.pre)))
    ∧ (∀ (m : RouteMapping) (path : String), m.strip = false →
       targetPathFor m path = path)
    ∧ (∀ (name : String) (svc : ServiceConfig) (tp : String),
        RouteResult.serviceNotRegistered name ≠ .routeNotFound
        ∧ RouteResult.resolved svc tp ≠ .routeNotFound) := by
  refine ⟨?_, ?_, ?_, ?_, ?_⟩
  · intro mappings services path
    rw [resolveRoute_notFound_iff]
    unfold findMapping
    simp only [List.find?_eq_none, Bool.not_eq_true]
  · intro l₁ l₂ m services path hnone hm
    have hfind : findMapping (l₁ ++ m :: l₂) path = some m :=
      find?_append_first l₁ m l₂ hnone hm
    unfold resolveRoute
    rw [hfind]
  · intro m path hstrip
    simp [targetPathFor, hstrip]
  · intro m path hstrip
    simp [targetPathFor, hstrip]
  · intro name svc tp
    exact ⟨by simp, by simp⟩

/-- Witness for claim C6 at a concrete input: "/api/orders/5" resolves past
the two non-matching rules to the order-service rule, with the path kept
intact (stripPrefix = false). -/
theorem routeResolutionFirstMatchWitness :
    resolveRoute ROUTE_MAPPINGS SERVICES "/api/orders/5"
      = .resolved
          { name := "order-service", url := "http://localhost:3000",
            healthCheck := "/health", timeout := 5000, retries := 3 }
          "/api/orders/5" := by
  have h := routeResolutionFirstMatch.2.1
    [ { pre := "/api/auth", serviceName := "auth-service",
        strip := false, authRequired := false },
      { pre := "/api/products", serviceName := "product-service",
        strip := false, authRequired := false } ]
    [ { pre := "/api/recommendations", serviceName := "recommendation-service",
        strip := false, authRequired := false } ]
    { pre := "/api/orders", serviceName := "order-service",
      strip := false, authRequired := true }
    SERVICES "/api/orders/5" (by decide) (by decide)
  exact h.trans (by decide)

/-- Claim C8: in required mode an expired token and a structurally invalid
token both answer 401 but with distinguishable error codes ("Token expired"
versus "Invalid token"); in optional mode any failing verification proceeds
unauthenticated with no error and the request untouched. -/
theorem authErrorDistinguishability (verify : Verifier) (h : Headers)
    (ah token : String) (hah : h.authorization = some ah)
    (hb : strStartsWith ah "Bearer " = true) (ht : strDrop ah 7 = token)
    (hne : token ≠ "") :
    (verify token = .error .expired →
       authenticateRequest verify h
         = .reject 401 "Token expired" "Your session has expired. Please login again.")
    ∧ (verify token = .error .malformed →
       authenticateRequest verify h
         = .reject 401 "Invalid token" "Authentication token is invalid")
    ∧ ("Token expired" : String) ≠ "Invalid token"
    ∧ (∀ e, verify token = .error e → optionalAuth verify h = .proceed none h) := by
  subst ht
  refine ⟨?_, ?_, by decide, ?_⟩
  · intro hv
    simp [authenticateRequest, hah, hb, hne, hv]
  · intro hv
    simp [authenticateRequest, hah, hb, hne, hv]
  · intro e hv
    simp [optionalAuth, hah, hb, hv]

/-- Witness for claim C8 at a concrete input: a verifier that reports the
token "exp" expired and everything else malformed, with headers carrying
"Bearer exp". -/
theorem authErrorDistinguishabilityWitness :
    authenticateRequest
        (fun t => if t = "exp" then .error .expired else .error .malformed)
        { authorization := some "Bearer exp", xUserId := none, xUserEmail := none,
          host := none, xForwardedFor := none, xRealIp := none,
          xForwardedProto := none }
      = .reject 401 "Token expired" "Your session has expired. Please login again." :=
  (authErrorDistinguishability
      (fun t => if t = "exp" then .error .expired else .error .malformed)
      { authorization := some "Bearer exp", xUserId := none, xUserEmail := none,
        host := none, xForwardedFor := none, xRealIp := none,
        xForwardedProto := none }
      "Bearer exp" "exp" rfl (by decide) (by decide) (by decide)).1 rfl

/-! ### Helper lemmas about the map embedding and the registry -/

/-- Updating the value at a key leaves the key list unchanged. -/
theorem keys_map_update {α : Type} (s : List (String × α)) (k : String) (v : α) :
    ((s.map (fun p => if p.1 = k then (k, v) else p)).map Prod.fst) = s.map Prod.fst := by
  induction s with
  | nil => rfl
  | cons a t ih => by_cases hak : a.1 = k <;> simp [hak, ih]

/-- The key search succeeds exactly when the key occurs in the key list. -/
theorem findKey_isSome_iff {α : Type} (s : List (String × α)) (k : String) :
    (s.find? (fun p => decide (p.1 = k))).isSome = true ↔ k ∈ s.map Prod.fst := by
  induction s with
  | nil => simp
  | cons a t ih =>
    by_cases hak : a.1 = k
    · simp [List.find?, hak]
    · simp [List.find?, hak, ih, Ne.symm hak]

/-- The key list of `mapSet`: unchanged when the key was present, the key
appended when it was absent. -/
theorem mapSet_keys {α : Type} (s : List (String × α)) (k : String) (v : α) :
    (mapSet s k v).map Prod.fst
      = if (s.find? (fun p => decide (p.1 = k))).isSome then s.map Prod.fst
        else s.map Prod.fst ++ [k] := by
  by_cases hc : (s.find? (fun p => decide (p.1 = k))).isSome = true
  · simp only [mapSet, hc, if_true, keys_map_update]
  · simp [mapSet, hc]

/-- `mapGet` succeeds exactly when the key occurs in the key list. -/
theorem mapGet_isSome_iff {α : Type} (s : List (String × α)) (k : String) :
    (mapGet s k).isSome = true ↔ k ∈ s.map Prod.fst := by
  unfold mapGet
  cases hf : s.find? (fun p => decide (p.1 = k)) with
  | none => simpa [hf] using findKey_isSome_iff s k
  | some a => simpa [hf] using findKey_isSome_iff s k

/-- A probe never touches the services map. -/
theorem checkServiceHealth_services (probe : String → ProbeResult) (now : Nat)
    (st : RegistryState) (n : String) :
    (checkServiceHealth probe now st n).2.services = st.services := by
  unfold checkServiceHealth
  cases mapGet st.services n with
  | none => rfl
  | some c => cases probe n <;> rfl

/-- The record a probe returns depends on the registry state only through
the services map. -/
theorem checkServiceHealth_fst_congr (probe : String → ProbeResult) (now : Nat)
    (st st' : RegistryState) (n : String) (hs : st'.services = st.services) :
    (checkServiceHealth probe now st' n).1 = (checkServiceHealth probe now st n).1 := by
  unfold checkServiceHealth
  rw [hs]
  cases mapGet st.services n with
  | none => rfl
  | some c => cases probe n <;> rfl

/-- Fanning out over a name list returns, in input order, the records each
probe would produce against the initial state, and leaves the services map
unchanged. -/
theorem checkHealthList_spec (probe : String → ProbeResult) (now : Nat) :
    ∀ (names : List String) (st : RegistryState),
      (checkHealthList probe now names st).1
          = names.map (fun n => (checkServiceHealth probe now st n).1)
        ∧ (checkHealthList probe now names st).2.services = st.services := by
  intro names
  induction names with
  | nil => intro st; exact ⟨rfl, rfl⟩
  | cons n ns ih =>
    intro st
    obtain ⟨ih1, ih2⟩ := ih (checkServiceHealth probe now st n).2
    constructor
    · simp only [checkHealthList, List.map_cons]
      rw [ih1]
      congr 1
      refine List.map_congr_left ?_
      intro a _
      exact checkServiceHealth_fst_congr probe now st _ a
        (checkServiceHealth_services probe now st n)
    · simp only [checkHealthList]
      rw [ih2, checkServiceHealth_services]

/-- Every returned record carries the probed service's name, registered or
not. -/
theorem checkServiceHealth_service_name (probe : String → ProbeResult) (now : Nat)
    (st : RegistryState) (n : String) :
    (checkServiceHealth probe now st n).1.service = n := by
  unfold checkServiceHealth
  cases mapGet st.services n with
  | none => rfl
  | some c => cases probe n <;> rfl

/-- Filtering the image of a map counts the preimages satisfying the
composed predicate. -/
theorem length_filter_map {α β : Type} (q : α → Bool) (f : β → α) (l : List β) :
    ((l.map f).filter q).length = (l.filter (fun b => q (f b))).length := by
  induction l with
  | nil => rfl
  | cons a t ih => cases hq : q (f a) <;> simp [List.filter_cons, hq, ih]

/-- A Boolean predicate splits a list's length into the matching and
non-matching parts. -/
theorem filter_bool_split {α : Type} (q : α → Bool) :
    ∀ l : List α, (l.filter q).length + (l.filter (fun a => !q a)).length = l.length := by
  intro l
  induction l with
  | nil => rfl
  | cons a t ih => cases hq : q a <;> simp [List.filter_cons, hq] <;> omega

/-- For registered names, probe records are unhealthy exactly for failing
probes and healthy exactly for succeeding ones; counting both. -/
theorem count_statuses (probe : String → ProbeResult) (now : Nat) (st : RegistryState) :
    ∀ names : List String, (∀ n ∈ names, (mapGet st.services n).isSome = true) →
      ((names.map (fun n => (checkServiceHealth probe now st n).1)).filter
          isUnhealthyRec).length
        = (names.filter (fun n => (probe n).isFail)).length
      ∧ ((names.map (fun n => (checkServiceHealth probe now st n).1)).filter
          isHealthyRec).length
        = (names.filter (fun n => !(probe n).isFail)).length := by
  intro names
  induction names with
  | nil => intro _; exact ⟨rfl, rfl⟩
  | cons n ns ih =>
    intro hmem
    obtain ⟨ih1, ih2⟩ := ih (fun n' h' => hmem n' (by simp [h']))
    obtain ⟨c, hget⟩ : ∃ c, mapGet st.services n = some c := by
      have := hmem n (by simp)
      cases hg : mapGet st.services n with
      | none => rw [hg] at this; cases this
      | some c => exact ⟨c, rfl⟩
    cases hp : probe n with
    | ok rt =>
      have hrec : (checkServiceHealth probe now st n).1
          = { service := n, status := .healthy, responseTime := some rt,
              lastCheck := now, error := none } := by
        simp [checkServiceHealth, hget, hp]
      constructor <;>
        simp [List.filter_cons, hrec, isUnhealthyRec, isHealthyRec, hp,
          ProbeResult.isFail, ih1, ih2]
    | probeFail msg =>
      have hrec : (checkServiceHealth probe now st n).1
          = { service := n, status := .unhealthy, responseTime := none,
              lastCheck := now, error := some msg } := by
        simp [checkServiceHealth, hget, hp]
      constructor <;>
        simp [List.filter_cons, hrec, isUnhealthyRec, isHealthyRec, hp,
          ProbeResult.isFail, ih1, ih2]

/-- Claim C7: over any registry, `checkAllServicesHealth` returns one record
per registered service, in registry order (the record list's names are the
services' key list), the unhealthy records are exactly the services whose
probe fails, and /ready answers 200 exactly when the number of records minus
the number of unhealthy ones is positive. -/
theorem checkAllServicesHealthComplete (st : RegistryState)
    (probe : String → ProbeResult) (now : Nat) :
    (checkAllServicesHealth probe now st).1.length = st.services.length
    ∧ (checkAllServicesHealth probe now st).1.map (fun r => r.service)
        = st.services.map Prod.fst
    ∧ ((checkAllServicesHealth probe now st).1.filter isUnhealthyRec).length
        = (st.services.filter (fun p => (probe p.1).isFail)).length
    ∧ (readyStatusCode (checkAllServicesHealth probe now st).1 = 200
        ↔ 0 < (checkAllServicesHealth probe now st).1.length
              - ((checkAllServicesHealth probe now st).1.filter isUnhealthyRec).length) := by
  obtain ⟨hres, -⟩ := checkHealthList_spec probe now (st.services.map Prod.fst) st
  have hmemreg : ∀ n ∈ st.services.map Prod.fst, (mapGet st.services n).isSome = true :=
    fun n hn => (mapGet_isSome_iff st.services n).mpr hn
  obtain ⟨hcu, hch⟩ := count_statuses probe now st (st.services.map Prod.fst) hmemreg
  have hlen : (checkAllServicesHealth probe now st).1.length = st.services.length := by
    unfold checkAllServicesHealth
    rw [hres]
    simp
  have hnames : (checkAllServicesHealth probe now st).1.map (fun r => r.service)
      = st.services.map Prod.fst := by
    unfold checkAllServicesHealth
    rw [hres, List.map_map]
    have : ∀ n ∈ st.services.map Prod.fst,
        ((fun r => r.service) ∘ fun n => (checkServiceHealth probe now st n).1) n = id n :=
      fun n _ => checkServiceHealth_service_name probe now st n
    rw [List.map_congr_left this, List.map_id]
  have hM : ((checkAllServicesHealth probe now st).1.filter isUnhealthyRec).length
      = (st.services.filter (fun p => (probe p.1).isFail)).length := by
    unfold checkAllServicesHealth
    rw [hres, hcu, length_filter_map]
  refine ⟨hlen, hnames, hM, ?_⟩
  have hH : ((checkAllServicesHealth probe now st).1.filter isHealthyRec).length
      = ((st.services.map Prod.fst).filter (fun n => !(probe n).isFail)).length := by
    unfold checkAllServicesHealth
    rw [hres, hch]
  have hsplit := filter_bool_split (fun n => (probe n).isFail) (st.services.map Prod.fst)
  have hklen : (st.services.map Prod.fst).length = st.services.length := by simp
  have hMk : ((st.services.map Prod.fst).filter (fun n => (probe n).isFail)).length
      = (st.services.filter (fun p => (probe p.1).isFail)).length :=
    length_filter_map _ _ _
  unfold readyStatusCode
  split
  · rename_i hpos
    constructor
    · intro _
      omega
    · intro _
      rfl
  · rename_i hneg
    constructor
    · intro h200
      exact absurd h200 (by decide)
    · intro hlt
      exact absurd
        (show 0 < ((checkAllServicesHealth probe now st).1.filter isHealthyRec).length by omega)
        hneg

/-- Probing a registered name rewrites only that name's record, preserving
the key-set invariant. -/
theorem checkServiceHealth_keys (probe : String → ProbeResult) (now : Nat)
    (st : RegistryState) (n : String)
    (hinv : st.healthStatuses.map Prod.fst = st.services.map Prod.fst) :
    ((checkServiceHealth probe now st n).2.healthStatuses.map Prod.fst
      = (checkServiceHealth probe now st n).2.services.map Prod.fst) := by
  unfold checkServiceHealth
  cases hget : mapGet st.services n with
  | none => exact hinv
  | some c =>
    have hmem : n ∈ st.services.map Prod.fst :=
      (mapGet_isSome_iff st.services n).mp (by simp [hget])
    have hfind : (st.healthStatuses.find? (fun p => decide (p.1 = n))).isSome = true :=
      (findKey_isSome_iff st.healthStatuses n).mpr (by rw [hinv]; exact hmem)
    cases probe n <;> simp [mapSet_keys, hfind, hinv]

/-- The fan-out preserves the key-set invariant. -/
theorem checkHealthList_keys (probe : String → ProbeResult) (now : Nat) :
    ∀ (names : List String) (st : RegistryState),
      st.healthStatuses.map Prod.fst = st.services.map Prod.fst →
      ((checkHealthList probe now names st).2.healthStatuses.map Prod.fst
        = (checkHealthList probe now names st).2.services.map Prod.fst) := by
  intro names
  induction names with
  | nil => intro st h; exact h
  | cons n ns ih =>
    intro st h
    simp only [checkHealthList]
    exact ih _ (checkServiceHealth_keys probe now st n h)

/-- Registering one service keeps the two key lists equal. -/
theorem registerService_keys (now : Nat) (st : RegistryState) (svc : ServiceConfig)
    (hinv : st.healthStatuses.map Prod.fst = st.services.map Prod.fst) :
    ((registerService now st svc).healthStatuses.map Prod.fst
      = (registerService now st svc).services.map Prod.fst) := by
  have hcond : (st.healthStatuses.find? (fun p => decide (p.1 = svc.name))).isSome
      = (st.services.find? (fun p => decide (p.1 = svc.name))).isSome := by
    by_cases hmem : svc.name ∈ st.services.map Prod.fst
    · rw [(findKey_isSome_iff st.healthStatuses svc.name).mpr (by rw [hinv]; exact hmem),
        (findKey_isSome_iff st.services svc.name).mpr hmem]
    · have h1 : ¬ (st.healthStatuses.find? (fun p => decide (p.1 = svc.name))).isSome = true := by
        rw [findKey_isSome_iff, hinv]; exact hmem
      have h2 : ¬ (st.services.find? (fun p => decide (p.1 = svc.name))).isSome = true := by
        rw [findKey_isSome_iff]; exact hmem
      rw [Bool.not_eq_true] at h1 h2
      rw [h1, h2]
  unfold registerService
  simp only
  rw [mapSet_keys, mapSet_keys, hcond, hinv]

/-- Initialization establishes the key-set invariant from any invariant
start state. -/
theorem initFold_keys (now : Nat) :
    ∀ (cfgs : List ServiceConfig) (st : RegistryState),
      st.healthStatuses.map Prod.fst = st.services.map Prod.fst →
      ((cfgs.foldl (registerService now) st).healthStatuses.map Prod.fst
        = (cfgs.foldl (registerService now) st).services.map Prod.fst) := by
  intro cfgs
  induction cfgs with
  | nil => intro st h; exact h
  | cons c t ih =>
    intro st h
    exact ih _ (registerService_keys now st c h)

/-- Claim C10: the stored health map's key set always equals the registered
service names: initialization creates one unknown record per configured
service; a probe writes only under an already-registered name (so both the
single probe and the fan-out preserve the key-set equality); and probing an
unregistered name returns a status=unknown record carrying an error message
while leaving the registry untouched. -/
theorem healthMapKeysInvariant :
    (∀ (cfgs : List ServiceConfig) (now : Nat),
       (initServices cfgs now).healthStatuses.map Prod.fst
         = (initServices cfgs now).services.map Prod.fst)
    ∧ (∀ (probe : String → ProbeResult) (now : Nat) (st : RegistryState) (name : String),
       st.healthStatuses.map Prod.fst = st.services.map Prod.fst →
       ((checkServiceHealth probe now st name).2.healthStatuses.map Prod.fst
         = (checkServiceHealth probe now st name).2.services.map Prod.fst))
    ∧ (∀ (probe : String → ProbeResult) (now : Nat) (st : RegistryState) (name : String),
       mapGet st.services name = none →
       checkServiceHealth probe now st name
         = ({ service := name, status := .unknown, responseTime := none,
              lastCheck := now, error := some "Service not found in registry" }, st))
    ∧ (∀ (probe : String → ProbeResult) (now : Nat) (st : RegistryState),
       st.healthStatuses.map Prod.fst = st.services.map Prod.fst →
       ((checkAllServicesHealth probe now st).2.healthStatuses.map Prod.fst
         = (checkAllServicesHealth probe now st).2.services.map Prod.fst)) := by
  refine ⟨?_, ?_, ?_, ?_⟩
  · intro cfgs now
    exact initFold_keys now cfgs _ rfl
  · intro probe now st name hinv
    exact checkServiceHealth_keys probe now st name hinv
  · intro probe now st name hget
    simp [checkServiceHealth, hget]
  · intro probe now st hinv
    exact checkHealthList_keys probe now _ st hinv

/-- Witness for claim C10 at concrete inputs: probing the unregistered name
"ghost" against the initialized registry returns the unknown record and
leaves the state untouched, and probing the registered "auth-service"
preserves the key-set equality. -/
theorem healthMapKeysInvariantWitness :
    checkServiceHealth (fun _ => .ok 5) 7 (initServices SERVICES 0) "ghost"
      = ({ service := "ghost", status := .unknown, responseTime := none,
           lastCheck := 7, error := some "Service not found in registry" },
         initServices SERVICES 0)
    ∧ ((checkServiceHealth (fun _ => .ok 5) 7 (initServices SERVICES 0)
          "auth-service").2.healthStatuses.map Prod.fst
        = (checkServiceHealth (fun _ => .ok 5) 7 (initServices SERVICES 0)
            "auth-service").2.services.map Prod.fst) :=
  ⟨healthMapKeysInvariant.2.2.1 (fun _ => .ok 5) 7 (initServices SERVICES 0) "ghost"
      (by decide),
   healthMapKeysInvariant.2.1 (fun _ => .ok 5) 7 (initServices SERVICES 0) "auth-service"
      (by decide)⟩

end Gateway
